import Mathlib

/-!
Shallow embedding of `src/santander_ETL_DIO.py` (class `SantanderETL2025`).

External effects (pandas CSV read, HTTP fetch of JSONPlaceholder users,
OpenAI chat completion, filesystem writes, clock, `random.uniform`) are
modelled as explicit oracle parameters; the pure data flow of the script
is translated directly.
-/

namespace SantanderETL

/-- The wall-clock value `datetime.now()` returns, down to microseconds
(as Python `datetime` carries). -/
structure PyDateTime where
  year : Nat
  month : Nat
  day : Nat
  hour : Nat
  minute : Nat
  second : Nat
  microsecond : Nat
deriving Repr, DecidableEq

/-- Zero-pad a natural number's decimal representation to width 2
(Python `%m`, `%d`, `%H`, `%M`, `%S`). No truncation for wider numbers. -/
def pad2 (n : Nat) : String :=
  let s := toString n
  String.mk (List.replicate (2 - s.length) '0') ++ s

/-- Zero-pad to width 4 (Python `%Y` and the `:04d` format spec). -/
def pad4 (n : Nat) : String :=
  let s := toString n
  String.mk (List.replicate (4 - s.length) '0') ++ s

/-- Python datetime.strftime with format %Y%m%d_%H%M%S: the microsecond
field is dropped by the format. -/
def strftimeCompact (t : PyDateTime) : String :=
  pad4 t.year ++ pad2 t.month ++ pad2 t.day ++ "_" ++
    pad2 t.hour ++ pad2 t.minute ++ pad2 t.second

/-- Python `datetime.isoformat()` (microseconds included). -/
def isoString (t : PyDateTime) : String :=
  pad4 t.year ++ "-" ++ pad2 t.month ++ "-" ++ pad2 t.day ++ "T" ++
    pad2 t.hour ++ ":" ++ pad2 t.minute ++ ":" ++ pad2 t.second ++ "." ++
    toString t.microsecond

/-- One entry of a user's `news` list, as built in `update_user_data`. -/
structure NewsItem where
  nid : Nat
  date : String
  icon : String
  description : String
  category : String
  read : Bool
deriving Repr, DecidableEq

/-- The synthesized `account` sub-object built in `get_user_data`. -/
structure Account where
  number : String
  agency : String
  balance : ℚ
  limit : ℚ
deriving Repr, DecidableEq

/-- The `company` nested mapping of a JSONPlaceholder user (only `name`
is read by the script; the rest is carried opaquely). -/
structure Company where
  name : String
  rest : String
deriving Repr, DecidableEq

/-- The JSON body of a successful `GET {users_api_url}/{id}` response,
restricted to the fields `get_user_data` reads. -/
structure ApiData where
  id : Nat
  name : String
  username : String
  email : String
  phone : String
  website : String
  address : String
  company : Company
deriving Repr, DecidableEq

/-- The user record dictionary assembled by `get_user_data` and further
mutated by the TRANSFORM and LOAD phases. -/
structure User where
  id : Nat
  name : String
  username : String
  email : String
  phone : String
  website : String
  address : String
  company : Company
  account : Account
  news : List NewsItem
  ai_generated_message : Option String
deriving Repr, DecidableEq

/-- Outcome of pd.read_csv followed by reading the UserID column as a
list: either the ordered column of identifiers, or any exception
(missing file, missing column, ...), which the script catches. -/
inductive CsvOutcome where
  | ok (ids : List Nat)
  | err
deriving Repr, DecidableEq

/-- Embeds `extract_users_from_csv`: returns the identifier column on
success and `[]` from the except branch on any read failure. -/
def extract_users_from_csv (csv : CsvOutcome) : List Nat :=
  match csv with
  | .ok ids => ids
  | .err => []

/-- Outcome of `requests.get(f"{users_api_url}/{user_id}")`:
a response with status 200 and a JSON body, a non-200 response, or a
`requests.exceptions.RequestException`. -/
inductive FetchOutcome where
  | success (data : ApiData)
  | httpError (status : Nat)
  | connError
deriving Repr, DecidableEq

/-- Python `round(x, 2)` on the drawn balance (two decimal places). -/
def round2 (x : ℚ) : ℚ := (round (x * 100) : ℚ) / 100

/-- Embeds `get_user_data`: on a 200 response maps the API fields into the
banking record, synthesizing `account` (with `number = f"001{id:04d}"`,
`agency = "0001"`, a rounded random balance and a fixed limit) and an
empty `news` list; on a non-200 response or a transport failure it
returns `None`. The `random.uniform(1000, 50000)` draw is the oracle
argument `r`. -/
def get_user_data (resp : FetchOutcome) (r : ℚ) : Option User :=
  match resp with
  | .success d =>
      some { id := d.id, name := d.name, username := d.username,
             email := d.email, phone := d.phone, website := d.website,
             address := d.address, company := d.company,
             account := { number := "001" ++ pad4 d.id, agency := "0001",
                          balance := round2 r, limit := 5000 },
             news := [], ai_generated_message := none }
  | .httpError _ => none
  | .connError => none

/-- The fixed fallback template in the except branch of
`generate_ai_news`. -/
def fallbackMessage (name : String) : String :=
  name ++ ", invista hoje para um futuro financeiro mais seguro e próspero!"

/-- Outcome of the `client.chat.completions.create` call: the generated
text, or any exception (auth, network, malformed response). -/
inductive AiOutcome where
  | success (text : String)
  | failure
deriving Repr, DecidableEq

/-- Embeds `generate_ai_news`: returns the trimmed completion text on
success, and the deterministic fallback string interpolating the user
name on any failure. It never raises: the except-Exception branch
catches everything. -/
def generate_ai_news (resp : AiOutcome) (user : User) : String :=
  match resp with
  | .success text => text.trim
  | .failure => fallbackMessage user.name

/-- The constant icon URL of every news item. -/
def iconURL : String :=
  "https://cdn-icons-png.flaticon.com/512/3135/3135679.png"

/-- The news item built by `update_user_data` for `user` and `message`
at time `now`. -/
def mkNewsItem (now : PyDateTime) (user : User) (message : String) :
    NewsItem :=
  { nid := user.news.length + 1, date := isoString now, icon := iconURL,
    description := message, category := "investment_advice", read := false }

/-- Embeds `update_user_data`: appends the news item to the news list of
the record (an in-place mutation that survives any later failure), then
attempts `_save_user_update`; returns the mutated record together with
the boolean result (True, or False from the except branch when the file
write raised). `saveOk` is the oracle for the filesystem write. -/
def update_user_data (now : PyDateTime) (saveOk : Bool) (user : User)
    (message : String) : User × Bool :=
  let user' := { user with news := user.news ++ [mkNewsItem now user message] }
  (user', saveOk)

/-- The filename `_save_user_update` writes: the literal user_updates/user_,
then the id of the record, an underscore, the current time formatted as
%Y%m%d_%H%M%S, and the .json suffix. -/
def save_filename (uid : Nat) (now : PyDateTime) : String :=
  "user_updates/user_" ++ toString uid ++ "_" ++ strftimeCompact now ++ ".json"

/-- One entry of the report's `processing_summary`. -/
structure UserSummary where
  user_id : Nat
  user_name : String
  messages_count : Nat
  last_message : String
deriving Repr, DecidableEq

/-- The report dictionary built by `generate_report`. -/
structure Report where
  timestamp : String
  total_users_processed : Nat
  users_with_news : Nat
  total_messages_generated : Nat
  processing_summary : List UserSummary
deriving Repr, DecidableEq

/-- Embeds `generate_report`: aggregates the processed user list into
the final report (the news field read by user.get is truthy exactly when
the list is non-empty, and index -1 selects its last element). -/
def generate_report (ts : String) (users : List User) : Report :=
  { timestamp := ts,
    total_users_processed := users.length,
    users_with_news := users.countP (fun u => !u.news.isEmpty),
    total_messages_generated := (users.map (fun u => u.news.length)).sum,
    processing_summary := users.map (fun u =>
      { user_id := u.id, user_name := u.name,
        messages_count := u.news.length,
        last_message := match u.news.getLast? with
          | some item => item.description
          | none => "N/A" }) }

/-- The environment of oracles for one pipeline run: the CSV read
outcome, and per-identifier outcomes of the user fetch, the balance
draw, the AI call, and the file save, plus the clock (held fixed at one
value for the run; only the second-truncated form reaches filenames). -/
structure Env where
  csv : CsvOutcome
  fetch : Nat → FetchOutcome
  rand : Nat → ℚ
  ai : Nat → AiOutcome
  saveOk : Nat → Bool
  now : PyDateTime

/-- TRANSFORM phase body for one user: `generate_ai_news` then the
in-place store of the message under the ai_generated_message key. -/
def transformUser (env : Env) (u : User) : User :=
  { u with ai_generated_message := some (generate_ai_news (env.ai u.id) u) }

/-- LOAD phase body for one user: `update_user_data` applied to the
record and its stored ai_generated_message. -/
def loadUser (env : Env) (u : User) : User × Bool :=
  update_user_data env.now (env.saveOk u.id) u (u.ai_generated_message.getD "")

/-- Observable outcome of `run_etl_pipeline`. `fetchedIds` lists the
identifiers for which a network request was issued, `filesWritten` the
per-user output files actually created, `result` the method's Python
return value (`None` on the early return). -/
structure PipelineResult where
  earlyReturn : Bool
  fetchedIds : List Nat
  processed : List User
  success_count : Nat
  writtenIds : List Nat
  filesWritten : List String
  reportWritten : Option Report
  result : Option (List User)

/-- Embeds `run_etl_pipeline`: EXTRACT the identifier list (returning early when
it is empty), fetch each identifier in order keeping the successes,
TRANSFORM each fetched record, LOAD each transformed record counting the
successes, then generate the report over the (mutated) processed list. -/
def run_etl_pipeline (env : Env) : PipelineResult :=
  let user_ids := extract_users_from_csv env.csv
  if user_ids.isEmpty then
    { earlyReturn := true, fetchedIds := [], processed := [],
      success_count := 0, writtenIds := [], filesWritten := [],
      reportWritten := none, result := none }
  else
    let users := user_ids.filterMap
      (fun i => get_user_data (env.fetch i) (env.rand i))
    let processed_users := users.map (transformUser env)
    let loaded := processed_users.map (loadUser env)
    let finalUsers := loaded.map Prod.fst
    { earlyReturn := false,
      fetchedIds := user_ids,
      processed := finalUsers,
      success_count := (loaded.filter (fun p => p.snd)).length,
      writtenIds := loaded.filterMap
        (fun p => if p.snd then some p.fst.id else none),
      filesWritten := loaded.filterMap
        (fun p => if p.snd then some (save_filename p.fst.id env.now) else none),
      reportWritten := some (generate_report (isoString env.now) finalUsers),
      result := some finalUsers }

/-! Sample concrete inputs used by witness theorems. -/

/-- A sample clock value. -/
def sampleNow : PyDateTime := ⟨2025, 1, 2, 3, 4, 5, 6⟩

/-- A sample news item. -/
def sampleNews : NewsItem :=
  { nid := 1, date := "2025", icon := iconURL, description := "m",
    category := "investment_advice", read := false }

/-- A sample user record with a given id and news list. -/
def sampleUser (i : Nat) (ns : List NewsItem) : User :=
  { id := i, name := "Ana", username := "ana", email := "ana@b.c",
    phone := "1", website := "w", address := "r",
    company := { name := "Acme", rest := "" },
    account := { number := "0010001", agency := "0001", balance := 1234,
                 limit := 5000 },
    news := ns, ai_generated_message := none }

/-- A sample JSONPlaceholder response body for a given id. -/
def sampleApi (i : Nat) : ApiData :=
  { id := i, name := "Ana", username := "ana", email := "ana@b.c",
    phone := "1", website := "w", address := "r",
    company := { name := "Acme", rest := "" } }

/-- A sample run environment: CSV yields `[1, 2]`, every fetch succeeds
with the matching id, every AI call fails, every save succeeds. -/
def sampleEnvAiFail : Env :=
  { csv := .ok [1, 2], fetch := fun i => .success (sampleApi i),
    rand := fun _ => 2000, ai := fun _ => .failure,
    saveOk := fun _ => true, now := sampleNow }

/-- The fallback message for the sample user name. -/
def sampleFallbackMsg : String := fallbackMessage "Ana"

/-- A sample run environment in which every file save fails. -/
def sampleEnvSaveFail : Env :=
  { csv := .ok [1], fetch := fun i => .success (sampleApi i),
    rand := fun _ => 2000, ai := fun _ => .success "Oi",
    saveOk := fun _ => false, now := sampleNow }

/-- The news item the LOAD phase attaches in `sampleEnvAiFail`. -/
def sampleFallbackItem : NewsItem :=
  { nid := 1, date := isoString sampleNow, icon := iconURL,
    description := sampleFallbackMsg, category := "investment_advice",
    read := false }

/-- The record for a given id after the full sample run
`sampleEnvAiFail`. -/
def sampleFallbackUser (i : Nat) : User :=
  { id := i, name := "Ana", username := "ana", email := "ana@b.c",
    phone := "1", website := "w", address := "r",
    company := { name := "Acme", rest := "" },
    account := { number := "001" ++ pad4 i, agency := "0001",
                 balance := round2 2000, limit := 5000 },
    news := [sampleFallbackItem],
    ai_generated_message := some sampleFallbackMsg }

/-! Helper lemmas. -/

/-- The helper `pad4` really pads to width 4 (and never truncates). -/
theorem pad4_length (n : Nat) :
    (pad4 n).length = max 4 (toString n).length := by
  show (String.mk (List.replicate (4 - (toString n).length) '0')
      ++ toString n).length = _
  rw [String.length_append]
  show (List.replicate (4 - (toString n).length) '0').length
      + (toString n).length = _
  rw [List.length_replicate]
  omega

/-- The rounded balance stays within the bounds of the uniform draw. -/
theorem round2_bounds {r : ℚ} (h1 : 1000 ≤ r) (h2 : r ≤ 50000) :
    1000 ≤ round2 r ∧ round2 r ≤ 50000 := by
  have hlo : (100000 : ℤ) ≤ round (r * 100) := by
    rw [round_eq, Int.le_floor]
    push_cast
    linarith
  have hhi : round (r * 100) ≤ (5000000 : ℤ) := by
    rw [round_eq]
    have h : ⌊r * 100 + 1 / 2⌋ < 5000001 := by
      rw [Int.floor_lt]
      push_cast
      linarith
    omega
  constructor
  · rw [round2, le_div_iff₀ (by norm_num : (0 : ℚ) < 100)]
    calc (1000 : ℚ) * 100 = ((100000 : ℤ) : ℚ) := by norm_num
    _ ≤ (round (r * 100) : ℚ) := by exact_mod_cast hlo
  · rw [round2, div_le_iff₀ (by norm_num : (0 : ℚ) < 100)]
    calc (round (r * 100) : ℚ) ≤ ((5000000 : ℤ) : ℚ) := by
          exact_mod_cast hhi
    _ = (50000 : ℚ) * 100 := by norm_num

/-- A record returned by `get_user_data` starts with an empty news list. -/
theorem news_of_get_user_data {resp : FetchOutcome} {r : ℚ} {u : User}
    (h : get_user_data resp r = some u) : u.news = [] := by
  cases resp with
  | success d => cases h; rfl
  | httpError s => cases h
  | connError => cases h

/-- Any member of the pipeline's processed list arose from a fetched
record pushed through the TRANSFORM and LOAD bodies. -/
theorem mem_processed {env : Env} {u : User}
    (hu : u ∈ (run_etl_pipeline env).processed) :
    ∃ i v, i ∈ extract_users_from_csv env.csv ∧
      get_user_data (env.fetch i) (env.rand i) = some v ∧
      u = (loadUser env (transformUser env v)).fst := by
  unfold run_etl_pipeline at hu
  by_cases hids : (extract_users_from_csv env.csv).isEmpty
  · simp [hids] at hu
  · simp only [hids, if_false, Bool.false_eq_true, List.map_map,
      List.mem_map, List.mem_filterMap] at hu
    obtain ⟨v, ⟨i, hi, hv⟩, rfl⟩ := hu
    exact ⟨i, v, hi, hv, rfl⟩

/-- If every element maps to `1`, the mapped sum is the length. -/
theorem sum_map_eq_length_of_one {α : Type} (l : List α) (f : α → Nat)
    (h : ∀ a ∈ l, f a = 1) : (l.map f).sum = l.length := by
  induction l with
  | nil => rfl
  | cons a l ih =>
      simp only [List.map_cons, List.sum_cons, List.length_cons,
        h a (List.mem_cons_self a l)]
      rw [ih fun b hb => h b (List.mem_cons_of_mem a hb)]
      omega

/-- A `filterMap` that keeps a mapped value under a test is a sublist of
the plain map. -/
theorem filterMap_ite_sublist {α β : Type} (l : List α) (q : α → Bool)
    (f : α → β) :
    (l.filterMap fun a => if q a then some (f a) else none).Sublist
      (l.map f) := by
  induction l with
  | nil => simp
  | cons a l ih =>
      by_cases h : q a
      · simpa [List.filterMap_cons, h] using ih.cons₂ (f a)
      · simpa [List.filterMap_cons, h] using ih.cons (f a)

/-- When the fetch oracle answers with matching ids, the ids of the
fetched records form a sublist of the requested identifiers. -/
theorem fetched_map_id_sublist (env : Env)
    (hfetch : ∀ i d, env.fetch i = .success d → d.id = i)
    (ids : List Nat) :
    ((ids.filterMap fun i =>
        get_user_data (env.fetch i) (env.rand i)).map User.id).Sublist
      ids := by
  induction ids with
  | nil => simp
  | cons i ids ih =>
      rw [List.filterMap_cons]
      cases h : get_user_data (env.fetch i) (env.rand i) with
      | none => exact ih.cons i
      | some u =>
          have hid : u.id = i := by
            cases hresp : env.fetch i with
            | success d =>
                rw [hresp] at h
                simp only [get_user_data, Option.some.injEq] at h
                rw [← h]
                exact hfetch i d hresp
            | httpError s => rw [hresp] at h; simp [get_user_data] at h
            | connError => rw [hresp] at h; simp [get_user_data] at h
          rw [List.map_cons, hid]
          exact ih.cons₂ i

/-- Filtering a mapped list has the length of filtering by the composed
test. -/
theorem filter_map_length {α β : Type} (l : List α) (f : α → β)
    (p : β → Bool) :
    ((l.map f).filter p).length
      = (l.filter (fun a => p (f a))).length := by
  induction l with
  | nil => rfl
  | cons a l ih => by_cases h : p (f a) <;> simp [List.filter_cons, h, ih]

/-- The ids kept by the save filter form a sublist of the ids of all
loaded records. -/
theorem writtenIds_sublist_processed (l : List (User × Bool)) :
    (l.filterMap (fun p => if p.snd then some p.fst.id else none)).Sublist
      (List.map User.id (List.map Prod.fst l)) := by
  rw [List.map_map]
  exact filterMap_ite_sublist l (fun p => p.snd) (fun p => p.fst.id)

/-! Claim theorems. -/

/-- C1: `generate_report` sets `total_messages_generated` to the sum of
news-list lengths, `users_with_news` to the count of records with
non-empty news, `total_users_processed` to the list length; when every
record has exactly one news item, the message total equals the user
total. -/
theorem generate_report_totals (ts : String) (users : List User) :
    (generate_report ts users).total_messages_generated
        = (users.map (fun u => u.news.length)).sum ∧
    (generate_report ts users).users_with_news
        = (users.filter (fun u => !u.news.isEmpty)).length ∧
    (generate_report ts users).total_users_processed = users.length ∧
    ((∀ u ∈ users, u.news.length = 1) →
      (generate_report ts users).total_messages_generated
        = (generate_report ts users).total_users_processed) := by
  refine ⟨rfl, ?_, rfl, ?_⟩
  · simp [generate_report, List.countP_eq_length_filter]
  · intro h
    show (users.map (fun u => u.news.length)).sum = users.length
    exact sum_map_eq_length_of_one users _ h

/-- C1 witness: at a concrete two-user list where each news list has
length one, the message total equals the user total. -/
theorem generate_report_totals_witness :
    (∀ u ∈ [sampleUser 1 [sampleNews], sampleUser 2 [sampleNews]],
        u.news.length = 1) ∧
    (generate_report "t" [sampleUser 1 [sampleNews], sampleUser 2 [sampleNews]]).total_messages_generated
      = (generate_report "t" [sampleUser 1 [sampleNews], sampleUser 2 [sampleNews]]).total_users_processed :=
  ⟨by decide,
   (generate_report_totals "t"
     [sampleUser 1 [sampleNews], sampleUser 2 [sampleNews]]).2.2.2 (by decide)⟩

/-- C5: `update_user_data` appends exactly one news item, whose id is
the prior news length plus one (hence 1 for a fresh record), whose
description is the given message, whose icon and category are the fixed
constants and whose read flag is false; the prior items are untouched. -/
theorem update_user_data_append_spec (now : PyDateTime) (saveOk : Bool)
    (u : User) (msg : String) :
    (update_user_data now saveOk u msg).fst.news
        = u.news ++ [{ nid := u.news.length + 1, date := isoString now,
                       icon := iconURL, description := msg,
                       category := "investment_advice", read := false }] ∧
    (update_user_data now saveOk u msg).fst.news.length
        = u.news.length + 1 ∧
    (update_user_data now saveOk u msg).fst.news.take u.news.length
        = u.news ∧
    (u.news = [] →
      (update_user_data now saveOk u msg).fst.news
        = [{ nid := 1, date := isoString now, icon := iconURL,
             description := msg, category := "investment_advice",
             read := false }]) := by
  refine ⟨rfl, by simp [update_user_data, mkNewsItem], ?_, ?_⟩
  · show (u.news ++ [mkNewsItem now u msg]).take u.news.length = u.news
    simp
  · intro h
    show u.news ++ [mkNewsItem now u msg] = _
    simp [h, mkNewsItem]

/-- C5 witness: updating a fresh (empty-news) sample record appends the
single news item with id 1. -/
theorem update_user_data_append_spec_witness :
    (sampleUser 7 []).news = [] ∧
    (update_user_data sampleNow true (sampleUser 7 []) "m").fst.news
      = [{ nid := 1, date := isoString sampleNow, icon := iconURL,
           description := "m", category := "investment_advice",
           read := false }] :=
  ⟨rfl,
   (update_user_data_append_spec sampleNow true (sampleUser 7 []) "m").2.2.2
     rfl⟩

/-- C7: `extract_users_from_csv` yields the identifier column in order
on a successful read and the empty list on any read failure; as a total
function of the read outcome it never raises. -/
theorem extract_users_from_csv_total (csv : CsvOutcome) :
    (∀ ids, csv = .ok ids → extract_users_from_csv csv = ids) ∧
    (csv = .err → extract_users_from_csv csv = []) := by
  constructor
  · intro ids h; cases h; rfl
  · intro h; cases h; rfl

/-- C7 witness: a successful read of `[3, 3, 1]` is returned verbatim
(duplicates and order preserved), and the failure outcome yields `[]`. -/
theorem extract_users_from_csv_total_witness :
    extract_users_from_csv (.ok [3, 3, 1]) = [3, 3, 1] ∧
    extract_users_from_csv .err = [] :=
  ⟨(extract_users_from_csv_total (.ok [3, 3, 1])).1 [3, 3, 1] rfl,
   (extract_users_from_csv_total .err).2 rfl⟩

/-- C2: `generate_ai_news` never raises and, on any failure of the
external call, returns exactly the fallback template instantiated with
the user's name; when the service fails for every user, every news item
attached by the pipeline carries that fallback description. -/
theorem generate_ai_news_fallback_spec :
    (∀ u : User, generate_ai_news .failure u
        = u.name
          ++ ", invista hoje para um futuro financeiro mais seguro e próspero!") ∧
    (∀ env : Env, (∀ i, env.ai i = .failure) →
      ∀ u ∈ (run_etl_pipeline env).processed, ∀ item ∈ u.news,
        item.description
          = u.name
            ++ ", invista hoje para um futuro financeiro mais seguro e próspero!") := by
  constructor
  · intro u; rfl
  · intro env hai u hu item hitem
    obtain ⟨i, v, _, hv, rfl⟩ := mem_processed hu
    have hnews : v.news = [] := news_of_get_user_data hv
    have hone : (loadUser env (transformUser env v)).fst.news
        = [mkNewsItem env.now (transformUser env v)
            (fallbackMessage v.name)] := by
      simp [loadUser, update_user_data, transformUser, hnews,
        generate_ai_news, hai]
    rw [hone] at hitem
    have : item = mkNewsItem env.now (transformUser env v)
        (fallbackMessage v.name) := by simpa using hitem
    subst this
    rfl

/-- C2 witness: in the sample run where every AI call fails, the first
processed record's single news item carries the fallback message for
its name. -/
theorem generate_ai_news_fallback_spec_witness :
    (∀ i, sampleEnvAiFail.ai i = .failure) ∧
    sampleFallbackUser 1 ∈ (run_etl_pipeline sampleEnvAiFail).processed ∧
    sampleFallbackItem ∈ (sampleFallbackUser 1).news ∧
    sampleFallbackItem.description
      = (sampleFallbackUser 1).name
        ++ ", invista hoje para um futuro financeiro mais seguro e próspero!" := by
  have hproc : (run_etl_pipeline sampleEnvAiFail).processed
      = [sampleFallbackUser 1, sampleFallbackUser 2] := rfl
  have hmem : sampleFallbackUser 1 ∈ (run_etl_pipeline sampleEnvAiFail).processed := by
    rw [hproc]; exact List.mem_cons_self _ _
  have hitem : sampleFallbackItem ∈ (sampleFallbackUser 1).news :=
    List.mem_singleton_self _
  exact ⟨fun _ => rfl, hmem, hitem,
    generate_ai_news_fallback_spec.2 sampleEnvAiFail (fun _ => rfl)
      (sampleFallbackUser 1) hmem sampleFallbackItem hitem⟩

/-- C6: on a 200 response `get_user_data` returns a record whose account
number is `"001"` followed by the id zero-padded to four digits, whose
agency is `"0001"`, whose limit is `5000.00`, whose balance is the drawn
value rounded to two decimal places (staying in `[1000, 50000]` and a
multiple of a hundredth), and whose news list is empty; on a non-200
response or a transport failure it returns `None`. -/
theorem get_user_data_success_spec (d : ApiData) (r : ℚ)
    (hr1 : 1000 ≤ r) (hr2 : r ≤ 50000) :
    (∃ u, get_user_data (.success d) r = some u ∧
        u.account.number = "001" ++ pad4 d.id ∧
        u.account.agency = "0001" ∧
        u.account.limit = 5000 ∧
        u.news = [] ∧
        u.account.balance = round2 r ∧
        1000 ≤ u.account.balance ∧
        u.account.balance ≤ 50000 ∧
        ∃ n : ℤ, u.account.balance = (n : ℚ) / 100) ∧
    (pad4 d.id).length = max 4 (toString d.id).length ∧
    (∀ s, get_user_data (.httpError s) r = none) ∧
    get_user_data .connError r = none :=
  ⟨⟨_, rfl, rfl, rfl, rfl, rfl, rfl, (round2_bounds hr1 hr2).1,
     (round2_bounds hr1 hr2).2, ⟨round (r * 100), rfl⟩⟩,
   pad4_length d.id, fun _ => rfl, rfl⟩

/-- C6 witness: for the sample response with id 3 and a draw of 2000,
the returned account has balance 2000 within bounds. -/
theorem get_user_data_success_spec_witness :
    (1000 : ℚ) ≤ 2000 ∧ (2000 : ℚ) ≤ 50000 ∧
    ∃ u, get_user_data (.success (sampleApi 3)) 2000 = some u ∧
      u.account.number = "001" ++ pad4 3 ∧
      1000 ≤ u.account.balance ∧ u.account.balance ≤ 50000 := by
  refine ⟨by norm_num, by norm_num, ?_⟩
  obtain ⟨⟨u, hu, hnum, _, _, _, _, hb1, hb2, _⟩, -, -, -⟩ :=
    get_user_data_success_spec (sampleApi 3) 2000 (by norm_num)
      (by norm_num)
  exact ⟨u, hu, hnum, hb1, hb2⟩

/-- C3: with an id-consistent fetch endpoint, the ids written by the
pipeline form a sublist of the input identifiers (so a sub-multiset, in
the same relative order, with failed fetches merely omitted), as do the
ids of the processed records, and the report lists the processed records
in that same order. -/
theorem pipeline_order_spec (env : Env)
    (hfetch : ∀ i d, env.fetch i = .success d → d.id = i) :
    ((run_etl_pipeline env).processed.map User.id).Sublist
        (extract_users_from_csv env.csv) ∧
    (run_etl_pipeline env).writtenIds.Sublist
        ((run_etl_pipeline env).processed.map User.id) ∧
    (run_etl_pipeline env).writtenIds.Sublist
        (extract_users_from_csv env.csv) ∧
    (∀ rep, (run_etl_pipeline env).reportWritten = some rep →
        rep.processing_summary.map UserSummary.user_id
          = (run_etl_pipeline env).processed.map User.id) := by
  by_cases hids : (extract_users_from_csv env.csv).isEmpty
  · have h0 : extract_users_from_csv env.csv = [] :=
      List.isEmpty_iff.mp hids
    simp [run_etl_pipeline, hids, h0]
  · have h1 : ((run_etl_pipeline env).processed.map User.id).Sublist
        (extract_users_from_csv env.csv) := by
      simp only [run_etl_pipeline, hids, if_false, Bool.false_eq_true,
        List.map_map]
      exact fetched_map_id_sublist env hfetch _
    have h2 : (run_etl_pipeline env).writtenIds.Sublist
        ((run_etl_pipeline env).processed.map User.id) := by
      simp only [run_etl_pipeline, hids, if_false, Bool.false_eq_true]
      exact writtenIds_sublist_processed _
    refine ⟨h1, h2, h2.trans h1, ?_⟩
    intro rep hrep
    simp only [run_etl_pipeline, hids, if_false, Bool.false_eq_true,
      Option.some.injEq, List.map_map] at hrep ⊢
    rw [← hrep]
    simp only [generate_report, List.map_map]
    rfl

/-- C3 witness: in the sample run, the written ids `[1, 2]` form a
sublist of the CSV identifiers `[1, 2]`. -/
theorem pipeline_order_spec_witness :
    (∀ i d, sampleEnvAiFail.fetch i = .success d → d.id = i) ∧
    (run_etl_pipeline sampleEnvAiFail).writtenIds.Sublist
      (extract_users_from_csv sampleEnvAiFail.csv) := by
  have hfetch : ∀ i d, sampleEnvAiFail.fetch i = .success d → d.id = i := by
    intro i d h
    cases h
    rfl
  exact ⟨hfetch, (pipeline_order_spec sampleEnvAiFail hfetch).2.2.1⟩

/-- C4: the pipeline takes its early return exactly when the extracted
identifier list is empty, in which case no fetch happens, no report is
produced and the method returns `None`; otherwise it never aborts, every
identifier is fetched and the report is always produced. -/
theorem pipeline_early_return_iff (env : Env) :
    ((run_etl_pipeline env).earlyReturn = true ↔
        extract_users_from_csv env.csv = []) ∧
    (extract_users_from_csv env.csv = [] →
        (run_etl_pipeline env).fetchedIds = [] ∧
        (run_etl_pipeline env).reportWritten = none ∧
        (run_etl_pipeline env).result = none) ∧
    (extract_users_from_csv env.csv ≠ [] →
        (run_etl_pipeline env).earlyReturn = false ∧
        (run_etl_pipeline env).reportWritten
          = some (generate_report (isoString env.now)
              (run_etl_pipeline env).processed) ∧
        (run_etl_pipeline env).result
          = some (run_etl_pipeline env).processed ∧
        (run_etl_pipeline env).fetchedIds
          = extract_users_from_csv env.csv) := by
  by_cases hids : (extract_users_from_csv env.csv).isEmpty
  · have h0 : extract_users_from_csv env.csv = [] :=
      List.isEmpty_iff.mp hids
    simp [run_etl_pipeline, hids, h0]
  · have h0 : extract_users_from_csv env.csv ≠ [] := by
      intro h
      rw [h] at hids
      exact hids rfl
    simp [run_etl_pipeline, hids, h0]

/-- C4 witness: the sample run has a non-empty identifier list, so it
does not return early and its report is produced. -/
theorem pipeline_early_return_iff_witness :
    extract_users_from_csv sampleEnvAiFail.csv ≠ [] ∧
    (run_etl_pipeline sampleEnvAiFail).earlyReturn = false ∧
    (run_etl_pipeline sampleEnvAiFail).reportWritten
      = some (generate_report (isoString sampleEnvAiFail.now)
          (run_etl_pipeline sampleEnvAiFail).processed) := by
  have hne : extract_users_from_csv sampleEnvAiFail.csv ≠ [] := by
    intro h
    exact absurd h (by decide)
  have h := (pipeline_early_return_iff sampleEnvAiFail).2.2 hne
  exact ⟨hne, h.1, h.2.1⟩

/-- Filtering the load results on their boolean by length agrees with
filtering the final records on the save oracle. -/
theorem filter_snd_map_load (env : Env) (l : List User) :
    ((l.map (loadUser env)).filter (fun p => p.snd)).length
      = (((l.map (loadUser env)).map Prod.fst).filter
          (fun w => env.saveOk w.id)).length := by
  induction l with
  | nil => rfl
  | cons u l ih =>
      simp only [List.map_cons, List.filter_cons, loadUser,
        update_user_data]
      by_cases h : env.saveOk u.id
      · simp [h, ih]
      · simp [h, ih]

/-- C8: `update_user_data` returns its persistence outcome as a boolean
(false exactly when the save fails), and the orchestrator's
`success_count` counts exactly the processed users whose save
succeeded. -/
theorem pipeline_success_count_spec (env : Env) (now : PyDateTime)
    (saveOk : Bool) (u : User) (msg : String) :
    (update_user_data now saveOk u msg).snd = saveOk ∧
    (run_etl_pipeline env).success_count
      = ((run_etl_pipeline env).processed.filter
          (fun w => env.saveOk w.id)).length := by
  refine ⟨rfl, ?_⟩
  by_cases hids : (extract_users_from_csv env.csv).isEmpty
  · simp [run_etl_pipeline, hids]
  · simp only [run_etl_pipeline, hids, if_false, Bool.false_eq_true]
    exact filter_snd_map_load env _

/-- A string sandwiched between fixed prefix and suffix is determined by
the whole. -/
theorem append_mid_cancel {P s x y : String}
    (h : P ++ x ++ s = P ++ y ++ s) : x = y := by
  have h2 := congrArg String.data h
  simp only [String.data_append, List.append_assoc] at h2
  exact String.ext
    (List.append_cancel_right (List.append_cancel_left h2))

/-- C9 counterexample: two distinct run instants (differing only in
microseconds, hence agreeing at second granularity) give the same user
id the very same output filename, so the later run overwrites the
earlier file. -/
theorem save_filename_second_collision :
    ((⟨2025, 10, 12, 9, 30, 15, 0⟩ : PyDateTime)
        ≠ ⟨2025, 10, 12, 9, 30, 15, 999999⟩) ∧
    save_filename 1 ⟨2025, 10, 12, 9, 30, 15, 0⟩
      = save_filename 1 ⟨2025, 10, 12, 9, 30, 15, 999999⟩ :=
  ⟨by decide, rfl⟩

/-- C9 (amended): each output file lies under the fixed `user_updates`
directory with a name embedding the user's id and the run timestamp
formatted to second precision, and two runs yield distinct names for the
same id whenever their `%Y%m%d_%H%M%S` renderings differ. -/
theorem save_filename_distinct_spec (uid : Nat) (t1 t2 : PyDateTime)
    (h : strftimeCompact t1 ≠ strftimeCompact t2) :
    save_filename uid t1 ≠ save_filename uid t2 ∧
    save_filename uid t1
      = "user_updates/user_" ++ toString uid ++ "_"
        ++ strftimeCompact t1 ++ ".json" ∧
    ∃ rest, save_filename uid t1 = "user_updates/" ++ rest := by
  refine ⟨?_, rfl,
    "user_" ++ toString uid ++ "_" ++ strftimeCompact t1 ++ ".json", rfl⟩
  intro heq
  exact h (append_mid_cancel heq)

/-- C9 witness: runs one second apart give the same user distinct
filenames. -/
theorem save_filename_distinct_spec_witness :
    strftimeCompact ⟨2025, 10, 12, 9, 30, 15, 0⟩
        ≠ strftimeCompact ⟨2025, 10, 12, 9, 30, 16, 0⟩ ∧
    save_filename 1 ⟨2025, 10, 12, 9, 30, 15, 0⟩
      ≠ save_filename 1 ⟨2025, 10, 12, 9, 30, 16, 0⟩ := by
  have h : strftimeCompact (⟨2025, 10, 12, 9, 30, 15, 0⟩ : PyDateTime)
      ≠ strftimeCompact ⟨2025, 10, 12, 9, 30, 16, 0⟩ := by decide
  exact ⟨h, (save_filename_distinct_spec 1 _ _ h).1⟩

/-- With a failing save oracle, the kept-on-success `filterMap` over the
load results is empty. -/
theorem load_filterMap_nil {β : Type} (env : Env)
    (hsave : ∀ i, env.saveOk i = false) (l : List User)
    (f : User × Bool → β) :
    (l.map (loadUser env)).filterMap
        (fun p => if p.snd then some (f p) else none) = [] := by
  induction l with
  | nil => rfl
  | cons u l ih =>
      simp only [List.map_cons, List.filterMap_cons, loadUser,
        update_user_data]
      rw [hsave]
      simpa using ih

/-- With a failing save oracle, the success filter over the load results
is empty. -/
theorem load_filter_nil (env : Env)
    (hsave : ∀ i, env.saveOk i = false) (l : List User) :
    (l.map (loadUser env)).filter (fun p => p.snd) = [] := by
  induction l with
  | nil => rfl
  | cons u l ih =>
      simp only [List.map_cons, List.filter_cons, loadUser,
        update_user_data]
      rw [hsave]
      simpa using ih

/-- Every record the pipeline finishes with carries exactly one news
item. -/
theorem processed_news_length_one (env : Env) {u : User}
    (hu : u ∈ (run_etl_pipeline env).processed) : u.news.length = 1 := by
  obtain ⟨i, v, -, hv, rfl⟩ := mem_processed hu
  have hnews := news_of_get_user_data hv
  simp [loadUser, update_user_data, transformUser, hnews]

/-- C10: `update_user_data` mutates before persisting — on a save
failure it returns false yet the news item is already appended — and the
report still counts the unsaved messages: with every save failing, no
file is written and the success count is zero, yet the report counts one
message per processed user and classes every processed user as having
news. -/
theorem update_user_data_not_atomic (env : Env)
    (hsave : ∀ i, env.saveOk i = false) :
    (∀ (now : PyDateTime) (u : User) (msg : String),
        (update_user_data now false u msg).snd = false ∧
        (update_user_data now false u msg).fst.news.length
          = u.news.length + 1) ∧
    (run_etl_pipeline env).filesWritten = [] ∧
    (run_etl_pipeline env).success_count = 0 ∧
    (∀ rep, (run_etl_pipeline env).reportWritten = some rep →
        rep.total_messages_generated
          = (run_etl_pipeline env).processed.length ∧
        rep.users_with_news = (run_etl_pipeline env).processed.length ∧
        ∀ s ∈ rep.processing_summary, s.messages_count = 1) := by
  have hlen : ∀ u ∈ (run_etl_pipeline env).processed, u.news.length = 1 :=
    fun u hu => processed_news_length_one env hu
  refine ⟨fun now u msg => ⟨rfl, by simp [update_user_data, mkNewsItem]⟩,
    ?_, ?_, ?_⟩
  · by_cases hids : (extract_users_from_csv env.csv).isEmpty
    · simp [run_etl_pipeline, hids]
    · simp only [run_etl_pipeline, hids, if_false, Bool.false_eq_true]
      exact load_filterMap_nil env hsave _ _
  · by_cases hids : (extract_users_from_csv env.csv).isEmpty
    · simp [run_etl_pipeline, hids]
    · simp only [run_etl_pipeline, hids, if_false, Bool.false_eq_true]
      rw [load_filter_nil env hsave]
      rfl
  · intro rep hrep
    have hrep' : rep
        = generate_report (isoString env.now)
            (run_etl_pipeline env).processed := by
      by_cases hids : (extract_users_from_csv env.csv).isEmpty
      · simp [run_etl_pipeline, hids] at hrep
      · simp only [run_etl_pipeline, hids, if_false, Bool.false_eq_true,
          Option.some.injEq] at hrep ⊢
        exact hrep.symm
    subst hrep'
    refine ⟨sum_map_eq_length_of_one _ _ hlen, ?_, ?_⟩
    · show List.countP _ _ = _
      rw [List.countP_eq_length]
      intro u hu
      have h1 := hlen u hu
      have hne : u.news ≠ [] := by
        intro h0
        rw [h0] at h1
        exact absurd h1 (by decide)
      simp [List.isEmpty_iff, hne]
    · intro s hs
      simp only [generate_report, List.mem_map] at hs
      obtain ⟨u, hu, rfl⟩ := hs
      exact hlen u hu

/-- C10 witness: in a sample run where every save fails, no file is
written and the success count is zero (while the report, produced over
the mutated records, still counts their messages). -/
theorem update_user_data_not_atomic_witness :
    (∀ i, sampleEnvSaveFail.saveOk i = false) ∧
    (run_etl_pipeline sampleEnvSaveFail).filesWritten = [] ∧
    (run_etl_pipeline sampleEnvSaveFail).success_count = 0 := by
  have h := update_user_data_not_atomic sampleEnvSaveFail (fun _ => rfl)
  exact ⟨fun _ => rfl, h.2.1, h.2.2.1⟩

end SantanderETL
